import Mathlib

/-!
Verification development for the ZANDA_HIT satellite-inspection engine.

The repository's analysis core (`python_scripts/satellite_inspector.py`) is
referenced by the Cloud Function in `src/unnamed/part_010` and documented in
`src/SATELLITE_INSPECTOR.md`, but the Python sources themselves are not
present under `src/`.  Components that live only in the missing Python code
are therefore modelled from the specification (each such definition carries a
doc comment beginning `Modelled from the spec:`); everything at the JS/TS
boundary (the Cloud Functions in `part_010`, the Express endpoints in
`src/backend/server.js`) is embedded directly from the source.

Numeric values (percentages, index values) are embedded as rationals `ℚ`;
wall-clock instants are milliseconds as `Nat`.
-/

namespace ZandaHit

/-- Claimed project status, as stored in the registry
(spec section 3, `ProjectRef`). -/
inductive ProjectStatus
  | pending
  | inProgress
  | completed
  | cancelled
deriving DecidableEq, Repr

/-- Severity grades for a detected mismatch (spec section 4.7). -/
inductive Severity
  | none
  | low
  | medium
  | high
deriving DecidableEq, Repr

/-- Modelled from the spec: the policy table of expected percentage-change
ranges per claimed status (spec section 4.7 and the table in
`src/SATELLITE_INSPECTOR.md`, Expected Changes by Status).  The implementing
code, `python_scripts/satellite_inspector.py`, is absent from `src/`. -/
def expectedRange : ProjectStatus → ℚ × ℚ
  | .pending => (0, 5)
  | .inProgress => (5, 50)
  | .completed => (10, 100)
  | .cancelled => (0, 10)

/-- Whether an observed percentage change lies inside the expected range for
the claimed status. -/
def inExpectedRange (claimed : ProjectStatus) (change : ℚ) : Bool :=
  decide ((expectedRange claimed).1 ≤ change ∧ change ≤ (expectedRange claimed).2)

/-- Whether a change sits within 2 percentage points of a boundary of the
claimed status's expected range (the spec's borderline deviation). -/
def nearRangeBoundary (claimed : ProjectStatus) (change : ℚ) : Bool :=
  decide (|change - (expectedRange claimed).1| ≤ 2 ∨
          |change - (expectedRange claimed).2| ≤ 2)

/-- Modelled from the spec: severity grading of the Mismatch Evaluator
(spec section 4.7, Severity grading; `src/SATELLITE_INSPECTOR.md`, Severity
Levels).  High: claimed InProgress, age at least 6 months, change below 5
percent.  Medium: out of range with age under 6 months, or claimed Pending
with change above 20 percent.  Low: borderline deviation.  None: in range.
A residual out-of-range case the spec leaves open is graded medium. -/
def gradeSeverity (claimed : ProjectStatus) (durationMonths change : ℚ) :
    Severity :=
  if inExpectedRange claimed change then .none
  else if claimed = .inProgress ∧ 6 ≤ durationMonths ∧ change < 5 then .high
  else if durationMonths < 6 ∨ (claimed = .pending ∧ 20 < change) then .medium
  else if nearRangeBoundary claimed change then .low
  else .medium

/-- Outcome of the Mismatch Evaluator: the discrepancy flag and its grade. -/
structure MismatchOutcome where
  mismatch : Bool
  severity : Severity
deriving DecidableEq, Repr

/-- Modelled from the spec: the Mismatch Evaluator (spec section 4.7).
Mismatch is true exactly when the observed change falls outside the expected
range for the claimed status; severity is graded by `gradeSeverity`. -/
def evaluateMismatch (claimed : ProjectStatus) (durationMonths change : ℚ) :
    MismatchOutcome :=
  { mismatch := !inExpectedRange claimed change
    severity := gradeSeverity claimed durationMonths change }

/-- Modelled from the spec: the epsilon clamp of the Temporal Comparator
(spec section 4.5 suggests 0.01). -/
def comparatorEpsilon : ℚ := 1 / 100

/-- Before and after index values with derived deltas (spec section 3,
`ChangeEstimate`).  `lowConfidence` records that the denominator was clamped
because the before value was near zero. -/
structure ChangeEstimate where
  before : ℚ
  after : ℚ
  absoluteDelta : ℚ
  percentageDelta : ℚ
  lowConfidence : Bool
deriving DecidableEq, Repr

/-- Modelled from the spec: the Temporal Comparator (spec section 4.5).
`percentageDelta = (after - before) / max |before| epsilon`; when `|before|`
falls below epsilon the denominator is clamped to epsilon and the estimate is
flagged low confidence instead of being discarded. -/
def compareTemporal (b a : ℚ) : ChangeEstimate :=
  { before := b
    after := a
    absoluteDelta := a - b
    percentageDelta := (a - b) / max |b| comparatorEpsilon
    lowConfidence := decide (|b| < comparatorEpsilon) }

/-- One pixel of band data: a short-wave infrared value and a near-infrared
value (bands B11 and B8 in `src/SATELLITE_INSPECTOR.md`). -/
structure Pixel where
  swir : ℚ
  nir : ℚ
deriving DecidableEq, Repr

/-- Modelled from the spec: the per-pixel built-up index
`(swir - nir) / (swir + nir)` (spec section 4.4; NDBI Calculation in
`src/SATELLITE_INSPECTOR.md`). -/
def ndbi (p : Pixel) : ℚ := (p.swir - p.nir) / (p.swir + p.nir)

/-- Pixels whose denominator `swir + nir` is nonzero; the reducer masks the
others out rather than propagating an undefined value. -/
def maskedPixels (ps : List Pixel) : List Pixel :=
  ps.filter (fun p => p.swir + p.nir ≠ 0)

/-- Modelled from the spec: the Spectral Index Calculator's reduction (spec
section 4.4): the arithmetic mean of the per-pixel index over the in-region
pixels that survive the zero-denominator mask (0 when none survive). -/
def meanIndex (ps : List Pixel) : ℚ :=
  let vs := (maskedPixels ps).map ndbi
  if vs.length = 0 then 0 else vs.sum / (vs.length : ℚ)

/-- Band data is valid when every pixel's reflectance values are
nonnegative. -/
def validBands (ps : List Pixel) : Prop :=
  ∀ p ∈ ps, 0 ≤ p.swir ∧ 0 ≤ p.nir

/-- Result of fetching one period's imagery: either a mean index sample for
the best scene, or no usable scene (spec sections 4.2 and 4.3). -/
inductive PeriodFetch
  | sample (value : ℚ)
  | noScenesFound
deriving DecidableEq, Repr

/-- Modelled from the spec: the Status Classifier's table-driven policy (spec
section 4.6).  Change at least 50 percent classifies Completed; change in
[5, 50) classifies InProgress with confidence scaling linearly with how
centrally the value sits in the band; below 5 percent classifies Pending,
with high confidence only for young projects. -/
def classifyStatus (delta durationMonths : ℚ) : ProjectStatus × ℚ :=
  if 50 ≤ delta then (.completed, 9 / 10)
  else if 5 ≤ delta then
    (.inProgress, 1 / 2 + (9 / 20 - |delta - 55 / 2| / 50))
  else (.pending, if durationMonths < 3 then 9 / 10 else 1 / 2)

/-- The engine's per-run output record (spec section 3, `AnalysisResult`):
detected status (`none` encodes Inconclusive), confidence, mismatch flag and
severity. -/
structure AnalysisOutput where
  detected : Option ProjectStatus
  confidence : ℚ
  mismatch : Bool
  severity : Severity
deriving DecidableEq, Repr

/-- A discrepancy record raised from an analysis (spec section 3,
`RedFlag`). -/
structure RedFlag where
  severity : Severity
  description : String
deriving DecidableEq, Repr

/-- Modelled from the spec: the Orchestrator's core pipeline from the two
period fetches to the produced output (spec section 4.8).  When either
period resolved to `NoScenesFound` the run routes to Classifying with a null
sample and terminates Inconclusive (detected none, confidence 0, mismatch
false); otherwise the comparator, classifier and mismatch evaluator run in
sequence, with a low-confidence comparator estimate capping the reported
confidence. -/
def pipelineOutput (claimed : ProjectStatus) (durationMonths : ℚ)
    (beforeFetch afterFetch : PeriodFetch) : AnalysisOutput :=
  match beforeFetch, afterFetch with
  | .sample b, .sample a =>
      let est := compareTemporal b a
      let pct := 100 * est.percentageDelta
      let cls := classifyStatus pct durationMonths
      let mm := evaluateMismatch claimed durationMonths pct
      { detected := some cls.1
        confidence := if est.lowConfidence then min cls.2 (1 / 4) else cls.2
        mismatch := mm.mismatch
        severity := mm.severity }
  | _, _ =>
      { detected := none, confidence := 0, mismatch := false,
        severity := .none }

/-- Flags raised for a produced output: one red flag exactly when the
mismatch bit is set (spec section 3, `RedFlag`). -/
def flagsFor (output : AnalysisOutput) : List RedFlag :=
  if output.mismatch then
    [{ severity := output.severity,
       description := "claimed status does not match observed change" }]
  else []

/-- The Orchestrator run: produced output paired with the red flags raised
for it. -/
def runPipeline (claimed : ProjectStatus) (durationMonths : ℚ)
    (beforeFetch afterFetch : PeriodFetch) : AnalysisOutput × List RedFlag :=
  let output := pipelineOutput claimed durationMonths beforeFetch afterFetch
  (output, flagsFor output)

/-- A geographic point as stored on a project document
(`geoPoint` in `src/unnamed/part_010`). -/
structure GeoPoint where
  latitude : ℚ
  longitude : ℚ
deriving DecidableEq, Repr

/-- A project document as read by the Cloud Functions in
`src/unnamed/part_010`: the location, the claimed status, and the stored
satellite-analysis payload if any. -/
structure ProjectData where
  geoPoint : Option GeoPoint
  status : ProjectStatus
  satelliteAnalysis : Option String
deriving DecidableEq, Repr

/-- JavaScript numeric truthiness: a number is falsy exactly when it is 0
(NaN is not representable in the rational embedding). -/
def jsTruthyNum (q : ℚ) : Bool := decide (q ≠ 0)

/-- Embedded from `src/unnamed/part_010` lines 40-44: the trigger's guard
`!projectData.geoPoint || !projectData.geoPoint.latitude ||
!projectData.geoPoint.longitude`; a missing point, or a falsy (zero)
latitude or longitude, fails the guard. -/
def hasGeoPointData (pd : ProjectData) : Bool :=
  match pd.geoPoint with
  | none => false
  | some g => jsTruthyNum g.latitude && jsTruthyNum g.longitude

/-- Modelled from the spec: the Region Resolver's validity check on the
project point (spec section 4.1); the resolver itself lives in the Python
sources absent from `src/`.  A point is valid when latitude is within
[-90, 90] and longitude within [-180, 180]. -/
def geoPointInBounds (g : GeoPoint) : Bool :=
  decide (-90 ≤ g.latitude ∧ g.latitude ≤ 90 ∧
          -180 ≤ g.longitude ∧ g.longitude ≤ 180)

/-- Terminal outcome of one orchestrated run for one project.  `skipped` is
the no-op outcome: the trigger in `part_010` returns null without spawning
the analysis and without raising any error, and nothing schedules a retry of
a skipped project. -/
inductive OrchestratorOutcome
  | skipped
  | analyzed (result : AnalysisOutput × List RedFlag)
  | failedRun (reason : String)
deriving DecidableEq, Repr

/-- The orchestrated entry for one project: the geoPoint guard embedded from
`src/unnamed/part_010` lines 40-44, then the spec-modelled Region Resolver
bounds check, then the analysis pipeline. -/
def orchestrateProject (pd : ProjectData) (durationMonths : ℚ)
    (beforeFetch afterFetch : PeriodFetch) : OrchestratorOutcome :=
  if !hasGeoPointData pd then .skipped
  else
    match pd.geoPoint with
    | none => .skipped
    | some g =>
        if !geoPointInBounds g then .skipped
        else .analyzed (runPipeline pd.status durationMonths beforeFetch afterFetch)

/-- Error codes of `functions.https.HttpsError` as used in
`src/unnamed/part_010`. -/
inductive HttpsErrorCode
  | unauthenticated
  | invalidArgument
  | notFound
  | internal
deriving DecidableEq, Repr

/-- The success payload returned by the callable triggers in
`src/unnamed/part_010`. -/
structure CallableReply where
  success : Bool
  message : String
deriving DecidableEq, Repr

/-- Embedded from `src/unnamed/part_010` lines 168-172: the catch block of
the callable wraps every error raised inside its try block — including the
HttpsError values the body itself constructs — into a fresh
HttpsError with code internal. -/
def catchAllAsInternal {α : Type} (r : Except HttpsErrorCode α) :
    Except HttpsErrorCode α :=
  match r with
  | .ok v => .ok v
  | .error _ => .error .internal

/-- Embedded from `src/unnamed/part_010` lines 150-167: the try-block body
of `triggerSatelliteAnalysis`.  An absent project document raises
HttpsError not-found; otherwise the analysis process runs, and a rejection
of `runSatelliteAnalysis` surfaces as an error (modelled with code internal,
the code the catch assigns every error anyway). -/
def triggerTryBody (db : String → Option ProjectData) (projectId : String)
    (analysisSucceeds : Bool) : Except HttpsErrorCode CallableReply :=
  match db projectId with
  | none => .error .notFound
  | some _ =>
      if analysisSucceeds then
        .ok { success := true,
              message := "Satellite analysis triggered for project " ++ projectId }
      else .error .internal

/-- Embedded from `src/unnamed/part_010` lines 138-173: the callable
`triggerSatelliteAnalysis`.  Unauthenticated callers and missing project ids
are rejected before the try block; everything the try block raises is
re-wrapped by `catchAllAsInternal`. -/
def triggerSatelliteAnalysisCallable (authed : Bool) (projectId : Option String)
    (db : String → Option ProjectData) (analysisSucceeds : Bool) :
    Except HttpsErrorCode CallableReply :=
  if !authed then .error .unauthenticated
  else
    match projectId with
    | none => .error .invalidArgument
    | some pid => catchAllAsInternal (triggerTryBody db pid analysisSucceeds)

/-- Reply of the analysis query callable: either the stored payload or the
typed no-analysis-available reply (success false). -/
inductive GetReply
  | available (analysis : String)
  | notAvailable
deriving DecidableEq, Repr

/-- Embedded from `src/unnamed/part_010` lines 193-213: the try-block body
of `getSatelliteAnalysis`.  An absent project raises HttpsError not-found; a
present project with no stored analysis returns the typed notAvailable
reply (a normal return, not an error). -/
def getTryBody (db : String → Option ProjectData) (projectId : String) :
    Except HttpsErrorCode GetReply :=
  match db projectId with
  | none => .error .notFound
  | some pd =>
      match pd.satelliteAnalysis with
      | none => .ok .notAvailable
      | some a => .ok (.available a)

/-- Embedded from `src/unnamed/part_010` lines 178-218: the callable
`getSatelliteAnalysis`, with the same catch-all wrapping as the trigger. -/
def getSatelliteAnalysisCallable (authed : Bool) (projectId : Option String)
    (db : String → Option ProjectData) : Except HttpsErrorCode GetReply :=
  if !authed then .error .unauthenticated
  else
    match projectId with
    | none => .error .invalidArgument
    | some pid => catchAllAsInternal (getTryBody db pid)

/-- Embedded from `src/unnamed/part_010` (`triggerSatelliteAnalysis`, lines
138-173, spawning via `runSatelliteAnalysis`, lines 70-133): the effect of
one trigger call on the multiset of project ids with a live analysis
process.  The entry point reads only the project document — no in-flight
token is read, written or checked anywhere in the file — so a new process is
spawned whenever the document exists, regardless of an already-active run
for the same id. -/
def triggerEntryStep (db : String → Option ProjectData) (active : List String)
    (projectId : String) : List String × Except HttpsErrorCode CallableReply :=
  match db projectId with
  | none => (active, .error .internal)
  | some _ =>
      (projectId :: active,
       .ok { success := true,
             message := "Satellite analysis triggered for project " ++ projectId })

/-- A concrete project document used as a database entry in concrete
evaluations. -/
def sampleProjectData : ProjectData :=
  { geoPoint := some { latitude := 13, longitude := 77 }
    status := .inProgress
    satelliteAnalysis := none }

/-- A one-project database holding `sampleProjectData` under id p1. -/
def singleProjectDb : String → Option ProjectData :=
  fun pid => if pid = "p1" then some sampleProjectData else none

/-- Embedded from `src/unnamed/part_010` lines 126-131: the Cloud Function
kills the spawned analysis process after `10 * 60 * 1000` milliseconds. -/
def cloudFunctionTimeoutMs : Nat := 10 * 60 * 1000

/-- Embedded from `src/backend/server.js` (analyze-satellite route): the
Express binding kills its spawned analysis process after 300000 milliseconds
(5 minutes) and answers HTTP 408. -/
def expressAnalyzeTimeoutMs : Nat := 300000

/-- Observable state of one spawned analysis run. -/
inductive RunState
  | running
  | succeeded
  | failedState
deriving DecidableEq, Repr

/-- State of a spawned analysis process at wall-clock time `t` (milliseconds
since the spawn) under a kill timer of `timeoutMs`: `completion` gives the
process's natural finish time and success bit when it finishes on its own;
the timer fires at `timeoutMs`, kills a still-running process and rejects
the run (`part_010` lines 126-131; the route's timer in
`src/backend/server.js`). -/
def runStateAt (timeoutMs : Nat) (completion : Option (Nat × Bool)) (t : Nat) :
    RunState :=
  match completion with
  | some (tc, ok) =>
      if tc ≤ t ∧ tc < timeoutMs then (if ok then .succeeded else .failedState)
      else if timeoutMs ≤ t then .failedState
      else .running
  | none => if timeoutMs ≤ t then .failedState else .running

/-- Outcome of one spawn of the analysis process (exit code zero or not). -/
inductive AttemptOutcome
  | ok
  | err
deriving DecidableEq, Repr

/-- Side effects of one Firestore-trigger invocation: processes spawned and
failure log documents written to satelliteAnalysisLogs. -/
structure InspectorEffects where
  spawns : Nat
  failureLogs : Nat
deriving DecidableEq, Repr

/-- Embedded from `src/unnamed/part_010` lines 46-66: the Firestore trigger
makes a single call to `runSatelliteAnalysis` inside a try block; on
rejection the catch writes one log document to satelliteAnalysisLogs and the
function returns null.  No retry loop or backoff exists anywhere in the
entry point.  `oracle n` is the outcome the nth spawn of the analysis
process would have; the second component is the exception propagated to the
platform (`none`: the function returns null in both branches). -/
def inspectorRun (oracle : Nat → AttemptOutcome) :
    InspectorEffects × Option String :=
  match oracle 0 with
  | .ok => ({ spawns := 1, failureLogs := 0 }, none)
  | .err => ({ spawns := 1, failureLogs := 1 }, none)

/-- Embedded from `src/backend/server.js` (analyze-satellite route, close
handler): the route spawns the analysis process once; a nonzero exit answers
one HTTP 500 response and nothing retries.  The success branch (parsing the
process output) is summarised as the 200 answer.  Result: processes spawned
paired with the HTTP status answered. -/
def analyzeRouteRun (oracle : Nat → AttemptOutcome) : Nat × Nat :=
  match oracle 0 with
  | .ok => (1, 200)
  | .err => (1, 500)

/-- An attempt oracle whose first spawn fails and every later spawn would
succeed. -/
def flakyOracle : Nat → AttemptOutcome :=
  fun n => if n = 0 then .err else .ok

/-- Response of the mock trigger endpoint in `src/backend/server.js` lines
216-239. -/
structure MockTriggerReply where
  success : Bool
  message : String
  analysisId : String
  status : String
deriving DecidableEq, Repr

/-- JavaScript truthiness of an optional string: absent or empty is
falsy. -/
def jsTruthyStr (s : Option String) : Bool :=
  match s with
  | none => false
  | some v => decide (v ≠ "")

/-- Embedded from `src/backend/server.js` lines 216-239 (POST
/api/trigger-satellite-analysis): a falsy projectId or projectData answers
HTTP 400; otherwise the handler answers a fixed success reply with status
processing and an analysisId derived from the current time.  The handler
body contains no spawn and no database access; the second component lists
the analysis processes it starts (none). -/
def postTriggerSatelliteAnalysisRoute (projectId : Option String)
    (projectDataPresent : Bool) (nowMs : Nat) :
    Except Nat MockTriggerReply × List String :=
  if !jsTruthyStr projectId || !projectDataPresent then (.error 400, [])
  else
    (.ok { success := true
           message := "Satellite analysis triggered"
           analysisId := "analysis_" ++ toString nowMs
           status := "processing" }, [])

/-- The constant mock result record of `src/backend/server.js` lines
245-256. -/
structure MockAnalysisResults where
  ndbiChange : ℚ
  structureDetected : Bool
  progressPercentage : ℚ
  redFlags : List String
  confidence : ℚ
  lastUpdatedMs : Nat
deriving DecidableEq, Repr

/-- Response of the mock analysis query endpoint in `src/backend/server.js`
lines 241-263. -/
structure MockAnalysisReply where
  analysisId : String
  status : String
  results : MockAnalysisResults
deriving DecidableEq, Repr

/-- Embedded from `src/backend/server.js` lines 241-263 (GET
/api/satellite-analysis/:analysisId): the handler answers status completed
with a hard-coded result record for every analysisId; it consults no
database and runs no analysis. -/
def getSatelliteAnalysisRoute (analysisId : String) (nowMs : Nat) :
    MockAnalysisReply :=
  { analysisId := analysisId
    status := "completed"
    results :=
      { ndbiChange := 15 / 100
        structureDetected := true
        progressPercentage := 75
        redFlags := []
        confidence := 85 / 100
        lastUpdatedMs := nowMs } }

/-! ## Theorems -/

/-- C1: the Mismatch Evaluator sets mismatch exactly when the observed change
lies outside the expected range for the claimed status (Pending 0 to 5,
InProgress 5 to 50, Completed 10 to 100, Cancelled 0 to 10), and for
claimed InProgress at duration 8 months it returns mismatch false with
severity none at a 20 percent change, and mismatch true with severity high
at a 2 percent change. -/
theorem mismatch_evaluator_ranges_and_examples :
    (∀ d c : ℚ, (evaluateMismatch .pending d c).mismatch
        = !decide (0 ≤ c ∧ c ≤ 5)) ∧
    (∀ d c : ℚ, (evaluateMismatch .inProgress d c).mismatch
        = !decide (5 ≤ c ∧ c ≤ 50)) ∧
    (∀ d c : ℚ, (evaluateMismatch .completed d c).mismatch
        = !decide (10 ≤ c ∧ c ≤ 100)) ∧
    (∀ d c : ℚ, (evaluateMismatch .cancelled d c).mismatch
        = !decide (0 ≤ c ∧ c ≤ 10)) ∧
    evaluateMismatch .inProgress 8 20 = ⟨false, .none⟩ ∧
    evaluateMismatch .inProgress 8 2 = ⟨true, .high⟩ := by
  refine ⟨fun d c => rfl, fun d c => rfl, fun d c => rfl, fun d c => rfl,
    ?_, ?_⟩ <;> decide

/-- C5: for every pair of index samples the comparator's percentage delta is
a well-defined finite rational: the denominator `max |before| epsilon` is
strictly positive (so the division never degenerates; in the rational
embedding this is the counterpart of never producing NaN or infinity), the
delta genuinely equals `(after - before)` divided by that clamped
denominator, and the estimate is flagged low confidence exactly when
`|before|` is below epsilon — it is produced in every case, never
discarded. -/
theorem percentage_delta_finite_and_clamped (b a : ℚ) :
    0 < max |b| comparatorEpsilon ∧
    (compareTemporal b a).percentageDelta * max |b| comparatorEpsilon
      = a - b ∧
    (compareTemporal b a).lowConfidence = decide (|b| < comparatorEpsilon) := by
  have hpos : 0 < max |b| comparatorEpsilon := by
    have : (0 : ℚ) < comparatorEpsilon := by norm_num [comparatorEpsilon]
    exact lt_max_of_lt_right this
  refine ⟨hpos, ?_, rfl⟩
  have hne : max |b| comparatorEpsilon ≠ 0 := ne_of_gt hpos
  simp [compareTemporal, div_mul_cancel₀, hne]

/-- Sum of a list of rationals each lying in [-1, 1] is within ± its
length. -/
theorem sum_bounds_of_mem_bounds (l : List ℚ)
    (h : ∀ x ∈ l, -1 ≤ x ∧ x ≤ 1) :
    -(l.length : ℚ) ≤ l.sum ∧ l.sum ≤ (l.length : ℚ) := by
  induction l with
  | nil => simp
  | cons x xs ih =>
    have hx := h x (List.mem_cons_self x xs)
    have hxs := ih (fun y hy => h y (List.mem_cons_of_mem x hy))
    simp only [List.length_cons, List.sum_cons]
    push_cast
    constructor
    · linarith [hx.1, hxs.1]
    · linarith [hx.2, hxs.2]

/-- The per-pixel index lies in [-1, 1] whenever both bands are nonnegative
and the denominator is nonzero. -/
theorem ndbi_mem_Icc (p : Pixel) (hs : 0 ≤ p.swir) (hn : 0 ≤ p.nir)
    (hd : p.swir + p.nir ≠ 0) : -1 ≤ ndbi p ∧ ndbi p ≤ 1 := by
  have hpos : 0 < p.swir + p.nir := lt_of_le_of_ne (by linarith) (Ne.symm hd)
  constructor
  · rw [ndbi, le_div_iff₀ hpos]
    linarith
  · rw [ndbi, div_le_iff₀ hpos]
    linarith

/-- C4: for every scene with valid band data the reduced mean index lies in
the closed interval [-1, 1]; pixels with zero denominator are excluded from
the mean by the mask instead of contributing an undefined value. -/
theorem mean_index_bounded (ps : List Pixel) (h : validBands ps) :
    -1 ≤ meanIndex ps ∧ meanIndex ps ≤ 1 := by
  rw [meanIndex]
  set vs := (maskedPixels ps).map ndbi with hvs
  by_cases hlen : vs.length = 0
  · simp [hlen]
  · have hmem : ∀ x ∈ vs, -1 ≤ x ∧ x ≤ 1 := by
      intro x hx
      rw [hvs, List.mem_map] at hx
      obtain ⟨p, hp, rfl⟩ := hx
      have hpmem : p ∈ ps := List.mem_of_mem_filter hp
      have hd : p.swir + p.nir ≠ 0 := by
        have := List.of_mem_filter hp
        simpa using this
      exact ndbi_mem_Icc p (h p hpmem).1 (h p hpmem).2 hd
    have hb := sum_bounds_of_mem_bounds vs hmem
    have hn : (0 : ℚ) < (vs.length : ℚ) := by
      have : 0 < vs.length := Nat.pos_of_ne_zero hlen
      exact_mod_cast this
    constructor
    · simp only [hlen, if_false]
      rw [le_div_iff₀ hn]
      linarith [hb.1]
    · simp only [hlen, if_false]
      rw [div_le_iff₀ hn]
      linarith [hb.2]

/-- C4 witness: a concrete scene with valid bands, one masked zero-denominator
pixel included, whose mean lies in [-1, 1]. -/
theorem mean_index_bounded_witness :
    validBands [⟨3, 1⟩, ⟨0, 0⟩, ⟨2, 5⟩] ∧
    -1 ≤ meanIndex [⟨3, 1⟩, ⟨0, 0⟩, ⟨2, 5⟩] ∧
    meanIndex [⟨3, 1⟩, ⟨0, 0⟩, ⟨2, 5⟩] ≤ 1 := by
  have hv : validBands [⟨3, 1⟩, ⟨0, 0⟩, ⟨2, 5⟩] := by
    intro p hp
    fin_cases hp <;> constructor <;> norm_num
  exact ⟨hv, mean_index_bounded _ hv⟩

/-- C3: a run in which both period fetches resolve to NoScenesFound
terminates Inconclusive — detected status null, confidence 0, mismatch
false — and raises no red flag; moreover, across all runs a red flag is
raised exactly when the produced output has mismatch true (so in particular
only when it is true). -/
theorem no_scenes_inconclusive_and_flag_only_on_mismatch :
    (∀ (claimed : ProjectStatus) (d : ℚ),
      (runPipeline claimed d .noScenesFound .noScenesFound).1
        = { detected := none, confidence := 0, mismatch := false,
            severity := .none } ∧
      (runPipeline claimed d .noScenesFound .noScenesFound).2 = []) ∧
    (∀ (claimed : ProjectStatus) (d : ℚ) (bf af : PeriodFetch),
      ((runPipeline claimed d bf af).2.isEmpty
        = !(runPipeline claimed d bf af).1.mismatch)) := by
  constructor
  · intro claimed d
    cases claimed <;> exact ⟨rfl, rfl⟩
  · intro claimed d bf af
    rw [runPipeline, flagsFor]
    cases hm : (pipelineOutput claimed d bf af).mismatch <;> simp [hm]

/-- C6: every project whose location point is missing, or present but out of
valid latitude/longitude bounds, is treated as not analyzable: the
orchestrated entry returns the skipped no-op outcome — no analysis pipeline
runs, no failure outcome is produced, and nothing schedules a retry. -/
theorem bad_coordinates_skipped (pd : ProjectData) (d : ℚ)
    (bf af : PeriodFetch)
    (h : pd.geoPoint = none ∨
         ∃ g, pd.geoPoint = some g ∧ geoPointInBounds g = false) :
    orchestrateProject pd d bf af = .skipped := by
  rcases h with hnone | ⟨g, hg, hb⟩
  · rw [orchestrateProject, hasGeoPointData, hnone]
    rfl
  · rw [orchestrateProject, hasGeoPointData, hg]
    by_cases ht : (jsTruthyNum g.latitude && jsTruthyNum g.longitude) = true
    · simp only [ht, Bool.not_true, Bool.false_eq_true, if_false, hg, hb]
      rfl
    · simp only [Bool.not_eq_true] at ht
      simp [ht]

/-- C6 witness: a project with no geoPoint and a project at latitude 999 are
both skipped. -/
theorem bad_coordinates_skipped_witness :
    orchestrateProject ⟨none, .pending, none⟩ 0 .noScenesFound .noScenesFound
      = .skipped ∧
    orchestrateProject ⟨some ⟨999, 77⟩, .inProgress, none⟩ 4
        (.sample (1 / 10)) (.sample (2 / 10)) = .skipped := by
  constructor
  · exact bad_coordinates_skipped _ 0 _ _ (Or.inl rfl)
  · exact bad_coordinates_skipped _ 4 _ _ (Or.inr ⟨⟨999, 77⟩, rfl, by decide⟩)

/-- C2 (code bug witness): the trigger entry of `part_010` consults no
per-project token.  Starting from a state where an analysis for project p1
is already active, a second trigger for p1 spawns a second process — two
runs for the same id become active — and the second caller observes the
started success reply, not an already-running outcome.  This contradicts
the spec's mutual-exclusion requirement and the repository's own
documentation (`src/SATELLITE_INSPECTOR.md`, Concurrent Limits: 1 analysis
per project at a time). -/
theorem concurrent_triggers_both_start :
    (triggerEntryStep singleProjectDb ["p1"] "p1").1.count "p1" = 2 ∧
    (triggerEntryStep singleProjectDb ["p1"] "p1").2
      = .ok { success := true,
              message := "Satellite analysis triggered for project p1" } := by
  constructor <;> rfl

/-- C7 counterexample: in the Express binding a run with no natural
completion is already force-failed at t = 360000 ms (6 minutes), a time at
which the claimed 10-minute default timeout has not yet fired — so it is not
a 10-minute timeout that force-transitions every in-progress run. -/
theorem express_timeout_fires_before_ten_minutes :
    runStateAt expressAnalyzeTimeoutMs none 360000 = .failedState ∧
    360000 < cloudFunctionTimeoutMs := by
  constructor <;> decide

/-- Once a kill timer's timeout has elapsed, a run governed by it is never
in the running state, however and whenever the process would have finished
on its own. -/
theorem runStateAt_not_running (timeoutMs : Nat)
    (completion : Option (Nat × Bool)) (t : Nat) (ht : timeoutMs ≤ t) :
    runStateAt timeoutMs completion t ≠ .running := by
  cases completion with
  | none => simp [runStateAt, ht]
  | some c =>
    obtain ⟨tc, ok⟩ := c
    rw [runStateAt]
    by_cases h1 : tc ≤ t ∧ tc < timeoutMs
    · simp only [h1, if_true]
      cases ok <;> simp
    · simp [h1, ht]

/-- C7 (amended): the Cloud Functions binding's kill timer is 600000 ms
(10 minutes) and the Express analyze-satellite binding's is 300000 ms
(5 minutes); in each binding, once its own timeout has elapsed no run
remains in the running state.  No per-project mutual-exclusion lock exists
in the code, so none is released on timeout. -/
theorem timeout_force_fails_runs (completion : Option (Nat × Bool)) (t : Nat) :
    cloudFunctionTimeoutMs = 600000 ∧
    expressAnalyzeTimeoutMs = 300000 ∧
    (cloudFunctionTimeoutMs ≤ t →
      runStateAt cloudFunctionTimeoutMs completion t ≠ .running) ∧
    (expressAnalyzeTimeoutMs ≤ t →
      runStateAt expressAnalyzeTimeoutMs completion t ≠ .running) := by
  exact ⟨rfl, rfl, runStateAt_not_running _ completion t,
         runStateAt_not_running _ completion t⟩

/-- C7 witness: at exactly the respective timeouts, an uncompleted run is no
longer running in either binding. -/
theorem timeout_force_fails_runs_witness :
    runStateAt cloudFunctionTimeoutMs none 600000 ≠ .running ∧
    runStateAt expressAnalyzeTimeoutMs none 300000 ≠ .running := by
  exact ⟨(timeout_force_fails_runs none 600000).2.2.1 (by decide),
         (timeout_force_fails_runs none 300000).2.2.2 (by decide)⟩

/-- C8 counterexample: with an oracle whose first spawn fails and whose
second would succeed, the Firestore trigger spawns exactly once, records the
run as failed in the log, and never makes the second or third attempt — the
claimed 3-attempt exponential-backoff retry does not exist in the code. -/
theorem fetch_error_not_retried :
    (inspectorRun flakyOracle).1.spawns = 1 ∧
    (inspectorRun flakyOracle).1.failureLogs = 1 ∧
    flakyOracle 1 = .ok ∧
    (inspectorRun flakyOracle).1.spawns ≠ 3 := by
  refine ⟨rfl, rfl, rfl, by decide⟩

/-- C8 (amended): an error during the analysis causes the run to fail on the
single attempt that is made — the code performs no retry and no backoff; the
Firestore trigger logs exactly one failure document and returns null rather
than propagating an exception, and the Express route answers one HTTP 500. -/
theorem single_attempt_logged_not_crashed (oracle : Nat → AttemptOutcome) :
    (inspectorRun oracle).1.spawns = 1 ∧
    (inspectorRun oracle).2 = none ∧
    (inspectorRun oracle).1.failureLogs
      = (if oracle 0 = .err then 1 else 0) ∧
    (analyzeRouteRun oracle).1 = 1 ∧
    (analyzeRouteRun oracle).2 = (if oracle 0 = .err then 500 else 200) := by
  cases h : oracle 0 <;> simp [inspectorRun, analyzeRouteRun, h]

/-- C9 (code bug witness): the try body of the trigger callable raises the
typed not-found error for an absent project — the evident intent — but the
callable's catch-all re-wraps it, so the caller actually observes the
internal error code instead of NotFound.  The no-analysis-available path
does return the typed notAvailable reply as claimed. -/
theorem absent_project_reported_internal_not_notfound :
    triggerTryBody (fun _ => none) "ghost" true = .error .notFound ∧
    triggerSatelliteAnalysisCallable true (some "ghost") (fun _ => none) true
      = .error .internal ∧
    HttpsErrorCode.internal ≠ HttpsErrorCode.notFound ∧
    getSatelliteAnalysisCallable true (some "p1") singleProjectDb
      = .ok .notAvailable := by
  refine ⟨rfl, rfl, by decide, rfl⟩

/-- C10: the Express HTTP binding's mock endpoints: the trigger endpoint,
given a truthy projectId and projectData, answers success true with status
processing while starting no analysis process, and the query endpoint
answers status completed with the identical constant result record
(ndbiChange 0.15, structureDetected true, progressPercentage 75, confidence
0.85, empty redFlags) for every analysisId — it never consults a real
analysis. -/
theorem mock_http_binding (pid : String) (hpid : pid ≠ "")
    (projectDataPresent : Bool)
    (hpd : projectDataPresent = true) (nowPost nowGet : Nat) (aid : String) :
    postTriggerSatelliteAnalysisRoute (some pid) projectDataPresent nowPost
      = (.ok { success := true
               message := "Satellite analysis triggered"
               analysisId := "analysis_" ++ toString nowPost
               status := "processing" }, []) ∧
    getSatelliteAnalysisRoute aid nowGet
      = { analysisId := aid
          status := "completed"
          results :=
            { ndbiChange := 15 / 100
              structureDetected := true
              progressPercentage := 75
              redFlags := []
              confidence := 85 / 100
              lastUpdatedMs := nowGet } } := by
  constructor
  · rw [postTriggerSatelliteAnalysisRoute, jsTruthyStr, hpd]
    simp [hpid]
  · rfl

/-- C10 witness: concrete evaluations of both mock endpoints. -/
theorem mock_http_binding_witness :
    postTriggerSatelliteAnalysisRoute (some "p1") true 7
      = (.ok { success := true
               message := "Satellite analysis triggered"
               analysisId := "analysis_7"
               status := "processing" }, []) ∧
    getSatelliteAnalysisRoute "anyId" 9
      = { analysisId := "anyId"
          status := "completed"
          results :=
            { ndbiChange := 15 / 100
              structureDetected := true
              progressPercentage := 75
              redFlags := []
              confidence := 85 / 100
              lastUpdatedMs := 9 } } := by
  exact mock_http_binding "p1" (by decide) true rfl 7 9 "anyId"

end ZandaHit
